import Mathlib

/-!
Shallow embedding of the "VideoTube" Express/Mongoose backend
(utils: asyncHandler, ApiError, ApiResponse, uploadOnCloudinary;
db: connectDB; user model: pre-save password hook, isPasswordCorrect;
controller: registerUser), together with proofs about the embedded
definitions.

JavaScript effects are made explicit: a request handler is a function
from its call arguments to the pair of (observable effects, completion),
where the completion records whether the call returned normally, threw
synchronously, or returned a promise that later rejects.
-/

/-- A JavaScript error value as used by the handlers: an optional numeric
`code` property and a `message` property. -/
structure JsError where
  code : Option Nat
  message : String
deriving DecidableEq, Repr

/-- A primitive JSON value appearing in the response bodies of this app. -/
inductive JVal where
  | jstr (s : String)
  | jbool (b : Bool)
deriving DecidableEq, Repr

/-- Observable effects of one handler invocation: the errors passed to
`next` (in order) and the responses written through `res.status(...).json(...)`
(status code paired with the JSON object as a key/value list, in order). -/
structure Effects where
  nextCalls : List JsError
  resWrites : List (Nat × List (String × JVal))
deriving DecidableEq, Repr

/-- How one handler invocation completes: a normal return, a synchronous
throw, or a returned promise that rejects with an error. An `async function`
never throws synchronously — a throw in its body becomes a rejection. -/
inductive Completion where
  | fulfilled
  | syncThrow (e : JsError)
  | rejected (e : JsError)
deriving DecidableEq, Repr

/-- The behavior of a request handler: from the call arguments (type `ρ`,
standing for the `(req, res, next)` triple) to effects and completion. -/
def Behavior (ρ : Type) : Type := ρ → Effects × Completion

/-- A JavaScript value that is either `undefined` or a callable handler. -/
inductive JsValue (ρ : Type) where
  | undefined
  | callable (f : Behavior ρ)

/-- Whether a `JsValue` can be invoked as a function. -/
def JsValue.isCallable : JsValue ρ → Bool
  | .undefined => false
  | .callable _ => true

/-- The `asyncHandler` from `utils/asyncHandler.js` as used by the
controllers (Readme lines 1561-1566):

`const asyncHandler = (requestHandler) => { return (req, res, next) => { Promise.resolve(requestHandler(req, res, next)).catch((err) => next(err)); }; }`

The inner closure calls `requestHandler` on the unchanged arguments.
If that call throws synchronously, the throw happens while evaluating the
argument of `Promise.resolve`, so it escapes the closure uncaught.
If it returns a promise that rejects, the `.catch` forwards the error to
`next` exactly once and the closure itself returns normally.
If it fulfills, nothing more happens. -/
def asyncHandler (requestHandler : Behavior ρ) : Behavior ρ := fun args =>
  match requestHandler args with
  | (eff, Completion.fulfilled) => (eff, Completion.fulfilled)
  | (eff, Completion.syncThrow e) => (eff, Completion.syncThrow e)
  | (eff, Completion.rejected e) =>
      ({ nextCalls := eff.nextCalls ++ [e], resWrites := eff.resWrites },
       Completion.fulfilled)

/-- The first ("Lesson 2") version of `asyncHandler` (Readme lines 623-628):

`const asyncHandler = (requestHandler) => { (req, res, next) => { Promise.resolve(requestHandler(req, res, next)).catch((err) => next(err)); } };`

The outer arrow has a block body whose only statement is the inner arrow
function as an expression statement; the block never returns it, so the
call evaluates the function expression, discards it, and yields
`undefined`. -/
def asyncHandlerV1 (requestHandler : Behavior ρ) : JsValue ρ :=
  let _inner : Behavior ρ := fun args =>
    match requestHandler args with
    | (eff, Completion.fulfilled) => (eff, Completion.fulfilled)
    | (eff, Completion.syncThrow e) => (eff, Completion.syncThrow e)
    | (eff, Completion.rejected e) =>
        ({ nextCalls := eff.nextCalls ++ [e], resWrites := eff.resWrites },
         Completion.fulfilled)
  JsValue.undefined

/-- The second version of `asyncHandler` (Readme lines 647-656):

`const asyncHandler = (fn) => async (req, res, next) => { try { await fn(req, res, next); } catch (error) { res.status(error.code || 500).json({success: false, message: error.message}); } };`

The wrapper is an `async` function: both a synchronous throw of `fn` and a
rejection of its promise are caught by the `try`/`catch`, which answers
directly through `res` (status `error.code || 500`) and never calls `next`. -/
def asyncHandlerV2 (fn : Behavior ρ) : Behavior ρ := fun args =>
  match fn args with
  | (eff, Completion.fulfilled) => (eff, Completion.fulfilled)
  | (eff, Completion.syncThrow e) =>
      ({ nextCalls := eff.nextCalls,
         resWrites := eff.resWrites ++
           [(e.code.getD 500,
             [("success", JVal.jbool false), ("message", JVal.jstr e.message)])] },
       Completion.fulfilled)
  | (eff, Completion.rejected e) =>
      ({ nextCalls := eff.nextCalls,
         resWrites := eff.resWrites ++
           [(e.code.getD 500,
             [("success", JVal.jbool false), ("message", JVal.jstr e.message)])] },
       Completion.fulfilled)

/-- A handler that throws synchronously (a plain, non-`async` function whose
body throws before returning a promise), with no prior effects. -/
def throwingHandler : Behavior Unit := fun _ =>
  ({ nextCalls := [], resWrites := [] }, Completion.syncThrow ⟨none, "boom"⟩)

/-- A handler that returns a promise rejecting with an error, with no prior
effects. -/
def rejectingHandler : Behavior Unit := fun _ =>
  ({ nextCalls := [], resWrites := [] }, Completion.rejected ⟨none, "boom"⟩)

example : (asyncHandler throwingHandler ()).1.nextCalls = [] := rfl
example : (asyncHandler rejectingHandler ()).1.nextCalls = [⟨none, "boom"⟩] := rfl
example : (asyncHandlerV2 rejectingHandler ()).1.nextCalls = [] := rfl

/-- The `ApiError` class from `utils/ApiError.js` (Readme lines 737-760).
The `data` slot is always assigned `null` and `success` always `false`;
the `stack` field is either the supplied non-empty trace or, when the
`stack` argument is omitted or empty (JavaScript falsy), the trace captured
by `Error.captureStackTrace` (modelled as `none`). -/
structure ApiError where
  statusCode : Int
  message : String
  errors : List String
  data : Option Unit
  success : Bool
  stack : Option String
deriving DecidableEq, Repr

/-- The `ApiError` constructor. `Option` arguments model omitted JavaScript
parameters: `message` defaults to `"Something Went Wrong"`, `errors` to `[]`,
`stack` to `""` (falsy, so the construction point is captured instead). -/
def ApiError.make (statusCode : Int) (message? : Option String)
    (errors? : Option (List String)) (stack? : Option String) : ApiError :=
  let message := message?.getD "Something Went Wrong"
  let errors := errors?.getD []
  let stackArg := stack?.getD ""
  { statusCode := statusCode
    message := message
    errors := errors
    data := none
    success := false
    stack := if stackArg = "" then none else some stackArg }

/-- The `ApiResponse` class from `utils/ApiResponse.js` (Readme lines
876-885): stores `statusCode`, `data` and `message` unchanged and computes
`success` as `statusCode < 400`. -/
structure ApiResponse (α : Type) where
  statusCode : Int
  data : α
  message : String
  success : Bool
deriving DecidableEq, Repr

/-- The `ApiResponse` constructor; `message` defaults to `"Success"` when
omitted. -/
def ApiResponse.make (statusCode : Int) (data : α) (message? : Option String) :
    ApiResponse α :=
  { statusCode := statusCode
    data := data
    message := message?.getD "Success"
    success := decide (statusCode < 400) }

/-- A response descriptor returned by the remote media host on a successful
upload. -/
structure UploadResponse where
  url : String
deriving DecidableEq, Repr

/-- Outcome of one call to `cloudinary.uploader.upload`: either the response
descriptor of the host or a rejection. -/
inductive UploadResult where
  | success (r : UploadResponse)
  | failure (e : String)
deriving DecidableEq, Repr

/-- The Node primitive `fs.unlinkSync`: deletes the file from the local filesystem
(modelled as the list of existing paths); throws `ENOENT` when the path
does not exist. -/
def unlinkSync (files : List String) (p : String) : Except String (List String) :=
  if p ∈ files then Except.ok (files.filter (fun q => q ≠ p)) else Except.error "ENOENT"

/-- The `uploadOnCloudinary` helper from `utils/cloudinary.js` (Readme lines
1273-1287). `files` is the local filesystem, `upload` the behavior of the
remote host on each path, `localFilePath` the argument (`none` for
absent/undefined; the empty string is also JavaScript-falsy). Returns the
filesystem after the call, the list of remote upload attempts made, and the
outcome of the function: `Except.ok` a result (`none` modelling `null`) when the
promise fulfills, `Except.error` when it rejects. On upload failure the
`catch` block runs `fs.unlinkSync(localFilePath)`; if that itself throws,
the error escapes the `catch` and the promise rejects. -/
def uploadOnCloudinary (files : List String) (upload : String → UploadResult)
    (localFilePath : Option String) :
    List String × List String × Except String (Option UploadResponse) :=
  match localFilePath with
  | none => (files, [], Except.ok none)
  | some p =>
    if p = "" then (files, [], Except.ok none)
    else
      match upload p with
      | UploadResult.success r => (files, [p], Except.ok (some r))
      | UploadResult.failure _ =>
        match unlinkSync files p with
        | Except.ok files2 => (files2, [p], Except.ok none)
        | Except.error e => (files, [p], Except.error e)

/-- Outcome of `mongoose.connect` at startup. -/
inductive ConnectOutcome where
  | connected (host : String)
  | failed (err : String)
deriving DecidableEq, Repr

/-- How a call observed from the caller ends: a normal return, the process
terminating with an exit code, or an error propagating to the caller. -/
inductive ProcessResult (α : Type) where
  | normal (a : α)
  | exited (code : Nat)
  | raised (e : String)
deriving DecidableEq, Repr

/-- The `connectDB` function from `src/db/index.js` (lines 4-13): awaits
`mongoose.connect`; on success logs and returns; on failure logs and calls
`process.exit(1)`. The `catch` swallows the error, so no error ever
propagates to the caller. -/
def connectDB (outcome : ConnectOutcome) : ProcessResult Unit :=
  match outcome with
  | ConnectOutcome.connected _ => ProcessResult.normal ()
  | ConnectOutcome.failed _ => ProcessResult.exited 1

/-- The content of the `password` field of the user document: `bcrypt.hash`
output in the bcrypt `$2b$cost$salt-digest` string format, or any other
string (e.g. the plaintext as first assigned). The model idealizes the
digest as collision-free: the `hashed` constructor records the exact input
string that was hashed, together with the cost factor and salt. -/
inductive PasswordField where
  | plain (s : String)
  | hashed (cost salt : Nat) (orig : String)
deriving DecidableEq, Repr

/-- The string stored in the `password` field of the document. A bcrypt hash
string carries a `$2b$` prefix plus cost, salt and digest, so it is always
strictly longer than the hashed input. -/
def PasswordField.asString : PasswordField → String
  | PasswordField.plain s => s
  | PasswordField.hashed cost salt orig =>
      "$2b$" ++ toString cost ++ "$" ++ toString salt ++ "$" ++ orig

/-- Idealized `bcrypt.hash(input, 10)` with ambient salt: produces a hash
recording cost factor 10, the salt and the exact input string. -/
def bcryptHash10 (salt : Nat) (input : String) : PasswordField :=
  PasswordField.hashed 10 salt input

/-- Idealized `bcrypt.compare(candidate, stored)`: re-hashes the candidate
with the salt and cost embedded in `stored` and compares digests, which
under the collision-free idealization succeeds exactly when the candidate
equals the string originally hashed. Against a non-hash string it returns
false. -/
def bcryptCompare (candidate : String) (stored : PasswordField) : Bool :=
  match stored with
  | PasswordField.hashed _ _ orig => candidate == orig
  | PasswordField.plain _ => false

/-- A user document, restricted to the state the password claims need:
the `password` field and the mongoose modification flag for it
(`this.isModified("password")`). -/
structure UserDoc where
  password : PasswordField
  passwordModified : Bool
deriving DecidableEq, Repr

/-- The pre-save hook from `models/user.model.js` (Readme lines 1015-1018):
`if (!this.isModified("password")) return next(); this.password = await bcrypt.hash(this.password, 10);`
A no-op when the password field is unmodified; otherwise replaces the field
with the cost-10 salted hash of its current string content. -/
def preSavePasswordHook (salt : Nat) (doc : UserDoc) : UserDoc :=
  if !doc.passwordModified then doc
  else { doc with password := bcryptHash10 salt doc.password.asString }

/-- Mongoose `save`: runs the pre-save hook, persists, and clears the
modified flag (a freshly saved document reports `isModified` false). -/
def UserDoc.save (salt : Nat) (doc : UserDoc) : UserDoc :=
  let d := preSavePasswordHook salt doc
  { d with passwordModified := false }

/-- Direct assignment `user.password = p`: stores the plaintext and marks
the field modified. -/
def UserDoc.setPassword (doc : UserDoc) (p : String) : UserDoc :=
  { doc with password := PasswordField.plain p, passwordModified := true }

/-- The `isPasswordCorrect` instance method (Readme lines 1032-1034):
`return await bcrypt.compare(password, this.password);`. -/
def UserDoc.isPasswordCorrect (doc : UserDoc) (password : String) : Bool :=
  bcryptCompare password doc.password

/-- An HTTP request, restricted to what the registration route reads: the
parsed body as a key/value list (the handler reads none of it). -/
structure Request where
  body : List (String × String)
deriving DecidableEq, Repr

/-- The inner handler of `registerUser` (Readme lines 1542-1547):
`async (req, res) => { res.status(200).json({message: "ok"}); }`. -/
def registerUserInner : Behavior Request := fun _ =>
  ({ nextCalls := [], resWrites := [(200, [("message", JVal.jstr "ok")])] },
   Completion.fulfilled)

/-- The exported `registerUser` handler: the inner handler wrapped by
`asyncHandler`. -/
def registerUser : Behavior Request := asyncHandler registerUserInner

example : (registerUser ⟨[("a", "b")]⟩).1.resWrites = [(200, [("message", JVal.jstr "ok")])] := rfl
example : (ApiError.make 404 none none none).message = "Something Went Wrong" := rfl
example : (ApiResponse.make 200 "d" none).success = true := rfl
example : uploadOnCloudinary [] (fun _ => UploadResult.failure "network") (some "/tmp/a.png") =
    ([], ["/tmp/a.png"], Except.error "ENOENT") := rfl
example : connectDB (ConnectOutcome.failed "refused") = ProcessResult.exited 1 := rfl

/-- Helper: a bcrypt hash string is strictly longer than the string that was
hashed, so the stored hash never equals its own preimage. -/
lemma PasswordField.asString_hashed_ne (c s : Nat) (orig : String) :
    PasswordField.asString (PasswordField.hashed c s orig) ≠ orig := by
  intro h
  have hlen := congrArg String.length h
  simp only [PasswordField.asString, String.length_append] at hlen
  have h1 : ("$2b$" : String).length = 4 := rfl
  have h2 : ("$" : String).length = 1 := rfl
  rw [h1, h2] at hlen
  omega

/-- C1 counterexample: the claim fails at concrete inputs. Under the in-use
wrapper, a synchronously throwing handler produces zero forwarded faults and
the exception escapes the wrapped handler (a crash, absent further
protection); under the second (try/catch) version, an asynchronous rejection
produces zero calls to `next` (it answers through `res` instead); and the
first version produces no handler at all. -/
theorem asyncHandler_sync_throw_escapes_cex :
    (asyncHandler throwingHandler ()).1.nextCalls.length ≠ 1 ∧
    (asyncHandler throwingHandler ()).2 = Completion.syncThrow ⟨none, "boom"⟩ ∧
    (asyncHandlerV2 rejectingHandler ()).1.nextCalls = [] ∧
    asyncHandlerV1 rejectingHandler = JsValue.undefined :=
  ⟨by decide, rfl, rfl, rfl⟩

/-- C1 (amended): for every handler wrapped by the in-use `asyncHandler`, an
asynchronous rejection is forwarded to `next` exactly once and the wrapped
call completes normally (no unhandled rejection); a synchronous throw,
however, is not caught by the wrapper: it escapes with no fault forwarded. -/
theorem asyncHandler_fault_forwarding (ρ : Type) (f : Behavior ρ) (args : ρ)
    (eff : Effects) (e : JsError) :
    (f args = (eff, Completion.rejected e) →
      asyncHandler f args =
        ({ nextCalls := eff.nextCalls ++ [e], resWrites := eff.resWrites },
         Completion.fulfilled)) ∧
    (f args = (eff, Completion.syncThrow e) →
      asyncHandler f args = (eff, Completion.syncThrow e)) := by
  constructor <;> intro h <;> simp [asyncHandler, h]

/-- Witness for C1 (amended) at the concrete rejecting and throwing
handlers. -/
theorem asyncHandler_fault_forwarding_witness :
    asyncHandler rejectingHandler () =
      ({ nextCalls := [⟨none, "boom"⟩], resWrites := [] }, Completion.fulfilled) ∧
    asyncHandler throwingHandler () =
      ({ nextCalls := [], resWrites := [] }, Completion.syncThrow ⟨none, "boom"⟩) :=
  ⟨(asyncHandler_fault_forwarding Unit rejectingHandler ()
      { nextCalls := [], resWrites := [] } ⟨none, "boom"⟩).1 rfl,
   (asyncHandler_fault_forwarding Unit throwingHandler ()
      { nextCalls := [], resWrites := [] } ⟨none, "boom"⟩).2 rfl⟩

/-- C2 counterexample: with an empty local filesystem and a failing remote
upload, the helper does not return `null` — the cleanup `fs.unlinkSync`
throws `ENOENT` inside the `catch` block and the rejection surfaces to the
caller, contradicting "null is the sole failure signal". -/
theorem uploadOnCloudinary_missing_file_rejects_cex :
    uploadOnCloudinary [] (fun _ => UploadResult.failure "File not found")
        (some "/tmp/missing.png") =
      ([], ["/tmp/missing.png"], Except.error "ENOENT") ∧
    (uploadOnCloudinary [] (fun _ => UploadResult.failure "File not found")
        (some "/tmp/missing.png")).2.2 ≠ Except.ok none :=
  ⟨rfl, by simp [uploadOnCloudinary, unlinkSync]⟩

/-- C2 (amended): a falsy (absent or empty) path returns `null` immediately
with no upload attempt; when the upload fails and the local file exists, the
file is deleted and `null` is returned with no exception; when the local
file does not exist, the cleanup deletion itself throws and that error
surfaces to the caller. -/
theorem uploadOnCloudinary_failure_contract (files : List String)
    (upload : String → UploadResult) (p e : String) :
    (uploadOnCloudinary files upload none = (files, [], Except.ok none)) ∧
    (uploadOnCloudinary files upload (some "") = (files, [], Except.ok none)) ∧
    (p ≠ "" → p ∈ files → upload p = UploadResult.failure e →
      uploadOnCloudinary files upload (some p) =
        (files.filter (fun q => q ≠ p), [p], Except.ok none)) := by
  refine ⟨rfl, rfl, ?_⟩
  intro hp hmem hup
  simp [uploadOnCloudinary, hp, hup, unlinkSync, hmem]

/-- Witness for C2 (amended): the upload of an existing file fails, the file
is deleted and `null` is returned. -/
theorem uploadOnCloudinary_failure_contract_witness :
    uploadOnCloudinary ["/tmp/a.png"] (fun _ => UploadResult.failure "network")
        (some "/tmp/a.png") =
      ([], ["/tmp/a.png"], Except.ok none) :=
  (uploadOnCloudinary_failure_contract ["/tmp/a.png"]
      (fun _ => UploadResult.failure "network") "/tmp/a.png" "network").2.2
    (by decide) (by decide) rfl

/-- C3: an `ApiError` constructed without an explicit message has message
`"Something Went Wrong"`; `errors` defaults to the empty list when omitted;
and regardless of arguments `data` is null and `success` is false. -/
theorem ApiError_defaults (statusCode : Int) (message? : Option String)
    (errors? : Option (List String)) (stack? : Option String) :
    (ApiError.make statusCode none errors? stack?).message = "Something Went Wrong" ∧
    (ApiError.make statusCode message? none stack?).errors = [] ∧
    (ApiError.make statusCode message? errors? stack?).data = none ∧
    (ApiError.make statusCode message? errors? stack?).success = false :=
  ⟨rfl, rfl, rfl, rfl⟩

/-- C4: an `ApiResponse` stores `statusCode` and `data` unchanged, defaults
`message` to `"Success"`, and computes `success` as `statusCode < 400`;
in particular `(200, user John Doe)` yields the full success envelope and
`(400, null, "Bad Request")` yields `success = false`. -/
theorem ApiResponse_contract {α : Type} (statusCode : Int) (data : α)
    (message? : Option String) :
    ((ApiResponse.make statusCode data message?).success = decide (statusCode < 400)) ∧
    ((ApiResponse.make statusCode data none).message = "Success") ∧
    ((ApiResponse.make statusCode data message?).statusCode = statusCode) ∧
    ((ApiResponse.make statusCode data message?).data = data) ∧
    (ApiResponse.make 200 [("user", "John Doe")] none =
      { statusCode := 200, data := [("user", "John Doe")],
        message := "Success", success := true }) ∧
    ((ApiResponse.make 400 (none : Option Unit) (some "Bad Request")).success = false) :=
  ⟨rfl, rfl, rfl, rfl, by simp [ApiResponse.make], by decide⟩

/-- C5: wrapping with the in-use `asyncHandler` is idempotent — wrapping
twice yields exactly the same handler as wrapping once — and the wrapped
handler invokes the inner handler on the unchanged call arguments: its
behavior at `args` depends only on the inner handler at that same `args`. -/
theorem asyncHandler_idempotent (ρ : Type) :
    (∀ f : Behavior ρ, asyncHandler (asyncHandler f) = asyncHandler f) ∧
    (∀ f g : Behavior ρ, ∀ args : ρ, f args = g args →
      asyncHandler f args = asyncHandler g args) := by
  constructor
  · intro f
    funext args
    rcases h : f args with ⟨eff, c⟩
    cases c <;> simp [asyncHandler, h]
  · intro f g args h
    simp [asyncHandler, h]

/-- Witness for C5 at concrete handlers. -/
theorem asyncHandler_idempotent_witness :
    asyncHandler (asyncHandler rejectingHandler) = asyncHandler rejectingHandler ∧
    asyncHandler throwingHandler () =
      asyncHandler (fun _ =>
        ({ nextCalls := [], resWrites := [] },
         Completion.syncThrow ⟨none, "boom"⟩)) () :=
  ⟨(asyncHandler_idempotent Unit).1 rejectingHandler,
   (asyncHandler_idempotent Unit).2 throwingHandler
     (fun _ => ({ nextCalls := [], resWrites := [] },
       Completion.syncThrow ⟨none, "boom"⟩)) () rfl⟩

/-- C6: saving twice without touching the password field leaves the document
(and in particular the password field) exactly as after the first save — the
pre-save hook is a no-op on the second save; and saving after assigning a
new plaintext password replaces the field with the salted hash at cost
factor 10. -/
theorem preSave_hash_at_most_once (salt1 salt2 : Nat) (doc : UserDoc) (p : String) :
    UserDoc.save salt2 (UserDoc.save salt1 doc) = UserDoc.save salt1 doc ∧
    (UserDoc.save salt1 (UserDoc.setPassword doc p)).password =
      PasswordField.hashed 10 salt1 p := by
  constructor
  · simp [UserDoc.save, preSavePasswordHook]
  · simp [UserDoc.save, UserDoc.setPassword, preSavePasswordHook, bcryptHash10,
      PasswordField.asString]

/-- C7: for a document whose password field holds the hash of `orig`, the
credential check succeeds exactly on `orig`, fails on every other candidate
including the stored hash string itself, and is literally the comparison
primitive `bcrypt.compare` applied to the candidate and the stored field
(never a re-hash-and-compare). -/
theorem isPasswordCorrect_contract (doc : UserDoc) (c s : Nat) (orig cand : String)
    (h : doc.password = PasswordField.hashed c s orig) :
    (doc.isPasswordCorrect cand = true ↔ cand = orig) ∧
    doc.isPasswordCorrect (doc.password.asString) = false ∧
    doc.isPasswordCorrect cand = bcryptCompare cand doc.password := by
  refine ⟨?_, ?_, rfl⟩
  · simp [UserDoc.isPasswordCorrect, bcryptCompare, h]
  · have hne := PasswordField.asString_hashed_ne c s orig
    simp [UserDoc.isPasswordCorrect, bcryptCompare, h]
    exact hne

/-- Witness for C7 at a concrete document hashed from "secret". -/
theorem isPasswordCorrect_contract_witness :
    ((UserDoc.mk (PasswordField.hashed 10 3 "secret") false).isPasswordCorrect
        "guess" = true ↔ "guess" = "secret") ∧
    (UserDoc.mk (PasswordField.hashed 10 3 "secret") false).isPasswordCorrect
        ((UserDoc.mk (PasswordField.hashed 10 3 "secret") false).password.asString) =
      false ∧
    (UserDoc.mk (PasswordField.hashed 10 3 "secret") false).isPasswordCorrect
        "guess" =
      bcryptCompare "guess"
        (UserDoc.mk (PasswordField.hashed 10 3 "secret") false).password :=
  isPasswordCorrect_contract (UserDoc.mk (PasswordField.hashed 10 3 "secret") false)
    10 3 "secret" "guess" rfl

/-- C8: a failed connection attempt makes `connectDB` terminate the process
with exit code 1 (non-zero), and `connectDB` never propagates an error to
its caller, whatever the connection outcome. -/
theorem connectDB_fatal_on_failure :
    (∀ err : String, connectDB (ConnectOutcome.failed err) = ProcessResult.exited 1) ∧
    (1 : Nat) ≠ 0 ∧
    (∀ (o : ConnectOutcome) (e : String), connectDB o ≠ ProcessResult.raised e) := by
  refine ⟨fun _ => rfl, by decide, ?_⟩
  intro o e h
  cases o <;> simp [connectDB] at h

/-- C9: for every request (hence every request body), `registerUser` writes
exactly one response, HTTP 200 with JSON `message: "ok"`, calls `next` on
nothing, and completes normally — no request-body validation occurs. -/
theorem registerUser_returns_ok (req : Request) :
    registerUser req =
      ({ nextCalls := [], resWrites := [(200, [("message", JVal.jstr "ok")])] },
       Completion.fulfilled) := rfl

/-- C10: the first ("Lesson 2") version of `asyncHandler` applied to any
handler evaluates to `undefined`, not to a function, so its result cannot be
invoked as a handler at all. -/
theorem asyncHandlerV1_evaluates_to_undefined (ρ : Type) (f : Behavior ρ) :
    asyncHandlerV1 f = JsValue.undefined ∧
    (asyncHandlerV1 f).isCallable = false :=
  ⟨rfl, rfl⟩
